import Mathlib

/-
Verification development for the norm_project legal question-answering
system: a Next.js proxy route (frontend/app/api/query/route.ts), a chat
component (ChatInterface, handleSendMessage), and a retrieval-augmented
backend described by the specification (document ingestion, vector
retrieval, answer synthesis with citations).

The proxy route and the chat component are embedded directly from the
TypeScript source.  The Python backend (structurer, retriever,
synthesizer, query service) is not present in the repository snapshot,
so those components are modelled from the specification; each such
definition carries a doc comment saying so.
-/

/- ===== JSON values and the JavaScript semantics the route relies on ===== -/

/-- JSON values, as produced by request.json() / response.json().
Numbers are modelled as rationals. -/
inductive Json where
  | null : Json
  | bool : Bool → Json
  | num : ℚ → Json
  | str : String → Json
  | arr : List Json → Json
  | obj : List (String × Json) → Json

/-- JavaScript truthiness of a JSON value: null, false, 0 and the empty
string are falsy; every array and object is truthy. -/
def Json.truthy : Json → Bool
  | .null => false
  | .bool b => b
  | .num q => decide (q ≠ 0)
  | .str s => decide (s ≠ "")
  | .arr _ => true
  | .obj _ => true

/-- First binding of a key in an object field list. -/
def lookupField : List (String × Json) → String → Option Json
  | [], _ => none
  | (k, v) :: rest, key => if k = key then some v else lookupField rest key

/-- Semantics of the destructuring in route.ts line 5,
const ( query ) = await request.json(): destructuring null throws
(result none); on an object the query property is read (possibly
undefined, i.e. some none); on any other value the property is
undefined. -/
def destructureQuery : Json → Option (Option Json)
  | Json.null => none
  | Json.obj fs => some (lookupField fs "query")
  | _ => some none

/-- JavaScript ToString coercion used by the template literal in
route.ts line 15.  Arrays stringify by joining elements with a comma,
null elements joining as the empty string; plain objects stringify as
[object Object]. -/
def Json.jsToString : Json → String
  | .null => "null"
  | .bool b => if b then "true" else "false"
  | .num q => toString q
  | .str s => s
  | .obj _ => "[object Object]"
  | .arr xs => String.intercalate ","
      (xs.attach.map fun x =>
        match x with
        | ⟨.null, _⟩ => ""
        | ⟨v, _⟩ => v.jsToString)

/-- The WhiteSpace and LineTerminator code points recognised by the
JavaScript String.prototype.trim. -/
def jsWhitespace (c : Char) : Bool :=
  let n := c.toNat
  n == 9 || n == 10 || n == 11 || n == 12 || n == 13 || n == 32 || n == 160 ||
  n == 0x1680 || (0x2000 ≤ n && n ≤ 0x200a) || n == 0x2028 || n == 0x2029 ||
  n == 0x202f || n == 0x205f || n == 0x3000 || n == 0xfeff

/-- JavaScript String.prototype.trim: remove leading and trailing
whitespace. -/
def jsTrim (s : String) : String :=
  String.mk (((s.data.dropWhile jsWhitespace).reverse.dropWhile jsWhitespace).reverse)

/-- UTF-8 encoding of a single code point as a list of bytes. -/
def utf8Bytes (n : Nat) : List Nat :=
  if n < 0x80 then [n]
  else if n < 0x800 then [0xC0 + n / 0x40, 0x80 + n % 0x40]
  else if n < 0x10000 then [0xE0 + n / 0x1000, 0x80 + (n / 0x40) % 0x40, 0x80 + n % 0x40]
  else [0xF0 + n / 0x40000, 0x80 + (n / 0x1000) % 0x40, 0x80 + (n / 0x40) % 0x40,
    0x80 + n % 0x40]

/-- Uppercase hexadecimal digit for a value below 16. -/
def hexDigitChar (n : Nat) : Char := if n < 10 then Char.ofNat (48 + n) else Char.ofNat (55 + n)

/-- Percent-encoding of one byte, e.g. 32 becomes %20. -/
def percentByte (b : Nat) : List Char := [Char.ofNat 37, hexDigitChar (b / 16), hexDigitChar (b % 16)]

/-- Code points left unescaped by encodeURIComponent:
A-Z a-z 0-9 - _ . ! ~ * and the two parentheses and the apostrophe. -/
def uriUnreservedCode (n : Nat) : Bool :=
  (48 ≤ n && n ≤ 57) || (65 ≤ n && n ≤ 90) || (97 ≤ n && n ≤ 122) ||
  n == 45 || n == 95 || n == 46 || n == 33 || n == 126 || n == 42 || n == 39 ||
  n == 40 || n == 41

/-- The JavaScript encodeURIComponent function: unreserved characters
pass through, every other character is UTF-8 encoded and each byte
percent-escaped. -/
def encodeURIComponent (s : String) : String :=
  String.mk ((s.data.map fun c =>
    if uriUnreservedCode c.toNat then [c]
    else (utf8Bytes c.toNat).flatMap percentByte)).flatten

/- ===== The proxy route, frontend/app/api/query/route.ts ===== -/

/-- Outcome of the fetch to the backend in route.ts: the fetch promise
rejects (network error), or a response arrives with an ok flag, a
status, and a body that either parses as JSON or does not (none). -/
inductive BackendResult where
  | fetchError : BackendResult
  | response (ok : Bool) (status : Nat) (body : Option Json) : BackendResult

/-- An HTTP response produced by the route: status code and JSON body. -/
structure HttpResponse where
  status : Nat
  body : Json

/-- The 400 response of route.ts lines 8-11. -/
def queryRequiredResponse : HttpResponse :=
  ⟨400, Json.obj [("error", Json.str "Query is required")]⟩

/-- The catch-all 500 response of route.ts lines 31-35. -/
def failedToProcessResponse : HttpResponse :=
  ⟨500, Json.obj [("error", Json.str "Failed to process query")]⟩

/-- The fixed part of the backend URL built in route.ts line 15. -/
def backendUrlBase : String := "http://localhost:8000/query?query="

/-- The POST handler of route.ts, as a function of the backend (the
behaviour of the fetch, keyed by URL) and the request body (none when
the body is not valid JSON, so request.json() throws).  Returns the
HTTP response together with the list of backend URLs fetched, so that
absence of a downstream call is expressible. -/
def POST (backend : String → BackendResult) (requestBody : Option Json) :
    HttpResponse × List String :=
  match requestBody with
  | none => (failedToProcessResponse, [])
  | some parsed =>
    match destructureQuery parsed with
    | none => (failedToProcessResponse, [])
    | some none => (queryRequiredResponse, [])
    | some (some q) =>
      if q.truthy then
        let url := backendUrlBase ++ encodeURIComponent q.jsToString
        match backend url with
        | BackendResult.fetchError => (failedToProcessResponse, [url])
        | BackendResult.response ok _ body =>
          if ok then
            match body with
            | some data => ({ status := 200, body := data }, [url])
            | none => (failedToProcessResponse, [url])
          else (failedToProcessResponse, [url])
      else (queryRequiredResponse, [])

/- ===== The chat component, ChatInterface.handleSendMessage ===== -/

/-- The guard and request construction of handleSendMessage: nothing is
sent when the trimmed input is empty or a request is in flight;
otherwise the trimmed input is sent as the query. -/
def handleSendMessage (inputValue : String) (isLoading : Bool) : Option String :=
  if jsTrim inputValue = "" ∨ isLoading = true then none
  else some (jsTrim inputValue)

/- ===== The backend, modelled from the specification ===== -/

/-- Modelled from the spec: the backend source (app/) is not in the
repository snapshot.  A LawDocument is a structured record for one
numbered law; id is derived from law_number and unique. -/
structure LawDocument where
  id : String
  law_number : String
  category : String
  title : String
  text : String
deriving DecidableEq

/-- Modelled from the spec: id is derived from law_number by a fixed
deterministic keying function. -/
def deriveId (law_number : String) : String := "law-" ++ law_number

/-- Modelled from the spec: the human-readable citation label, per the
spec scenario Law 3.1.1 (Widows) - Maintenance of Widow. -/
def sourceLabel (d : LawDocument) : String :=
  "Law " ++ d.law_number ++ " (" ++ d.category ++ ") - " ++ d.title

/-- A citation in an answer: source label and excerpt. -/
structure Citation where
  source : String
  text : String
deriving DecidableEq

/-- An answer: text plus an ordered, possibly empty, citation list. -/
structure Answer where
  text : String
  citations : List Citation
deriving DecidableEq

/-- Modelled from the spec: one (doc_id, vector) pair of the
VectorIndex. -/
structure IndexEntry where
  doc_id : String
  vec : List ℚ

/-- Modelled from the spec: one entry of the RetrievedSet as returned
by the index search, a doc_id with its similarity score. -/
structure Scored where
  doc_id : String
  score : ℚ
deriving DecidableEq

/-- Modelled from the spec: the search order, descending similarity
with ties broken deterministically by ascending doc_id. -/
def Scored.le (a b : Scored) : Prop :=
  b.score < a.score ∨ (a.score = b.score ∧ a.doc_id ≤ b.doc_id)

instance : DecidableRel Scored.le :=
  fun a b => inferInstanceAs (Decidable (_ ∨ _))

instance : IsTotal Scored Scored.le where
  total a b := by
    rcases lt_trichotomy a.score b.score with h | h | h
    · exact Or.inr (Or.inl h)
    · rcases le_total a.doc_id b.doc_id with h2 | h2
      · exact Or.inl (Or.inr ⟨h, h2⟩)
      · exact Or.inr (Or.inr ⟨h.symm, h2⟩)
    · exact Or.inl (Or.inl h)

instance : IsTrans Scored Scored.le where
  trans a b c hab hbc := by
    rcases hab with h | ⟨h1, h2⟩ <;> rcases hbc with h3 | ⟨h3, h4⟩
    · exact Or.inl (h3.trans h)
    · exact Or.inl (h3 ▸ h)
    · exact Or.inl (h1 ▸ h3)
    · exact Or.inr ⟨h1.trans h3, h2.trans h4⟩

/-- Modelled from the spec: exact brute-force nearest-neighbor search.
Every entry is scored against the query vector by the similarity
function, the whole list is sorted by descending score with ties by
ascending doc_id, and the first k results are returned.  The metric is
a parameter because cosine similarity over reals is not computable in
the model; the ordering guarantees hold for any metric. -/
def search (idx : List IndexEntry) (sim : List ℚ → List ℚ → ℚ) (qv : List ℚ)
    (k : Nat) : List Scored :=
  (List.insertionSort Scored.le (idx.map fun e => ⟨e.doc_id, sim qv e.vec⟩)).take k

/-- Modelled from the spec: the Retriever embeds the query with the
corpus embedding model and searches the index. -/
def retrieve (idx : List IndexEntry) (sim : List ℚ → List ℚ → ℚ)
    (embed : String → List ℚ) (q : String) (k : Nat) : List Scored :=
  search idx sim (embed q) k

/-- Modelled from the spec: index build, one vector per document. -/
def buildIndex (embed : String → List ℚ) (corpus : List LawDocument) : List IndexEntry :=
  corpus.map fun d => ⟨d.id, embed d.text⟩

/-- Find the document of a doc_id in the corpus. -/
def lookupDoc (corpus : List LawDocument) (i : String) : Option LawDocument :=
  corpus.find? fun d => d.id == i

/-- Modelled from the spec: the fixed text of the empty-retrieval
answer. -/
def noRelevantLawText : String := "No relevant law found for this query."

/-- Modelled from the spec: the Answer Synthesizer.  On an empty
RetrievedSet it returns the fixed no-relevant-law answer with no
citations and does not invoke the generative model.  Otherwise it
invokes the generative model (gen; none models upstream failure after
retries) and keeps exactly those returned citations whose source is the
label of a retrieved document — out-of-set citations are dropped. -/
def synthesize (gen : String → List (LawDocument × ℚ) → Option (String × List Citation))
    (q : String) (retrieved : List (LawDocument × ℚ)) : Option Answer :=
  if retrieved.isEmpty then some ⟨noRelevantLawText, []⟩
  else (gen q retrieved).map fun out =>
    ⟨out.1, out.2.filter fun c => retrieved.any fun r => sourceLabel r.1 == c.source⟩

/-- Query-time error taxonomy of the spec. -/
inductive QueryError where
  | invalidQuery : QueryError
  | upstream : QueryError
deriving DecidableEq

/-- Modelled from the spec: the Query Service.  Rejects the empty query
before any downstream work, then retrieves and synthesizes. -/
def answerQuery (corpus : List LawDocument) (sim : List ℚ → List ℚ → ℚ)
    (embed : String → List ℚ)
    (gen : String → List (LawDocument × ℚ) → Option (String × List Citation))
    (q : String) (k : Nat) : Except QueryError Answer :=
  if q = "" then Except.error QueryError.invalidQuery
  else
    let scored := retrieve (buildIndex embed corpus) sim embed q k
    let retrieved := scored.filterMap fun s =>
      (lookupDoc corpus s.doc_id).map fun d => (d, s.score)
    match synthesize gen q retrieved with
    | none => Except.error QueryError.upstream
    | some a => Except.ok a

/- ===== Ingestion, modelled from the specification ===== -/

/-- Modelled from the spec: a validated structured chunk before it
becomes a LawDocument. -/
structure RawRecord where
  law_number : String
  category : String
  title : String
  text : String

/-- Modelled from the spec: duplicate law_number within one ingestion
run is rejected, first occurrence wins.  The seen argument is the
registry of already accepted law numbers. -/
def dedupByLawNumber (seen : List String) : List RawRecord → List RawRecord
  | [] => []
  | r :: rs =>
    if r.law_number ∈ seen then dedupByLawNumber seen rs
    else r :: dedupByLawNumber (r.law_number :: seen) rs

/-- Modelled from the spec: the law_number to id mapping produced by
one ingestion run over a corpus. -/
def ingestMapping (corpus : List RawRecord) : List (String × String) :=
  (dedupByLawNumber [] corpus).map fun r => (r.law_number, deriveId r.law_number)

/-- First-occurrence deduplication of a key list, the key-level shadow
of dedupByLawNumber. -/
def dedupKeys (seen : List String) : List String → List String
  | [] => []
  | n :: ns => if n ∈ seen then dedupKeys seen ns else n :: dedupKeys (n :: seen) ns

/- ===== The response shape of the query endpoint ===== -/

/-- Modelled from the spec: the JSON body of a 200 answer,
(query, response, citations). -/
def answerToJson (q : String) (a : Answer) : Json :=
  Json.obj [("query", Json.str q), ("response", Json.str a.text),
    ("citations", Json.arr (a.citations.map fun c =>
      Json.obj [("source", Json.str c.source), ("text", Json.str c.text)]))]

/-- Recogniser for the citation object shape (source string, text
string). -/
def isCitationJson : Json → Bool
  | Json.obj [("source", Json.str _), ("text", Json.str _)] => true
  | _ => false

/-- Recogniser for the answer body shape of the spec:
query string, response string, citations an array of citation
objects. -/
def hasAnswerShape : Json → Bool
  | Json.obj [("query", Json.str _), ("response", Json.str _),
      ("citations", Json.arr cs)] => cs.all isCitationJson
  | _ => false

/-- Rational dot product, used as a concrete similarity metric in
witnesses. -/
def dotProduct (v w : List ℚ) : ℚ := (List.zipWith (fun a b => a * b) v w).sum

/-- The law record of the spec scenario, used as a concrete example. -/
def widowDoc : LawDocument :=
  ⟨deriveId "3.1.1", "3.1.1", "Widows", "Maintenance of Widow",
    "The heir must maintain the surviving widow of his father."⟩

/-- Claim C2: for every request whose query is missing or the empty
string, the route returns the 400 invalid-query error and makes no
downstream call (the list of fetched backend URLs is empty). -/
theorem postRejectsMissingOrEmptyQuery (backend : String → BackendResult)
    (v : Json) (qopt : Option Json)
    (hd : destructureQuery v = some qopt)
    (hq : qopt = none ∨ qopt = some (Json.str "")) :
    POST backend (some v) = (queryRequiredResponse, []) ∧
      queryRequiredResponse.status = 400 := by
  refine ⟨?_, rfl⟩
  rcases hq with rfl | rfl
  · simp [POST, hd]
  · simp [POST, hd, Json.truthy]

/-- Claim C8: a request whose body is not valid JSON is answered by
the catch-all handler with the generic 500 response, the same one used
for backend failures, and not with the 400 response. -/
theorem postInvalidJsonBodyIs500 (backend : String → BackendResult) :
    POST backend none = (failedToProcessResponse, []) ∧
      failedToProcessResponse.status = 500 ∧
      failedToProcessResponse ≠ queryRequiredResponse := by
  refine ⟨rfl, rfl, ?_⟩
  intro h
  simp [failedToProcessResponse, queryRequiredResponse] at h

/-- Claim C3: whenever the backend call fails (network error, or any
non-ok response with any status and any body), the caller receives the
fixed 500 response with the generic message; the response is a constant
independent of the upstream status and body, so raw upstream error
detail is never forwarded. -/
theorem postUpstreamFailureIsGeneric500 (backend : String → BackendResult)
    (v : Json) (q : Json)
    (hd : destructureQuery v = some (some q)) (ht : q.truthy = true)
    (hfail : backend (backendUrlBase ++ encodeURIComponent q.jsToString) =
        BackendResult.fetchError ∨
      ∃ st body, backend (backendUrlBase ++ encodeURIComponent q.jsToString) =
        BackendResult.response false st body) :
    POST backend (some v) =
      (failedToProcessResponse, [backendUrlBase ++ encodeURIComponent q.jsToString]) ∧
    failedToProcessResponse.status = 500 ∧
    failedToProcessResponse.body = Json.obj [("error", Json.str "Failed to process query")] := by
  refine ⟨?_, rfl, rfl⟩
  rcases hfail with h | ⟨st, body, h⟩ <;> simp [POST, hd, ht, h]

/-- Claim C10: the chat component sends no request when the input
trims to the empty string or a request is already in flight; otherwise
the query sent is exactly the input with leading and trailing
whitespace removed. -/
theorem handleSendMessageTrimsAndGuards (input : String) (loading : Bool) :
    ((jsTrim input = "" ∨ loading = true) → handleSendMessage input loading = none) ∧
    (jsTrim input ≠ "" → loading = false → handleSendMessage input loading = some (jsTrim input)) := by
  constructor
  · intro h
    unfold handleSendMessage
    rw [if_pos h]
  · intro h1 h2
    subst h2
    unfold handleSendMessage
    rw [if_neg]
    simp [h1]

/-- Claim C5: for an accepted non-empty query, the route fetches
exactly the backend URL carrying the URL-encoded query string and
returns status 200 with the backend JSON body unchanged; and the
answer body modelled from the spec has the documented shape
(query string, response string, citations as source/text objects). -/
theorem postForwardsAndReturnsBackendBody (backend : String → BackendResult)
    (s : String) (hs : s ≠ "") (st : Nat) (d : Json)
    (hb : backend (backendUrlBase ++ encodeURIComponent s) =
      BackendResult.response true st (some d)) :
    POST backend (some (Json.obj [("query", Json.str s)])) =
      ({ status := 200, body := d }, [backendUrlBase ++ encodeURIComponent s]) ∧
    ∀ q a, hasAnswerShape (answerToJson q a) = true := by
  constructor
  · have hjs : (Json.str s).jsToString = s := by simp [Json.jsToString]
    simp [POST, destructureQuery, lookupField, Json.truthy, hs, hjs, hb]
  · intro q a
    simp [hasAnswerShape, answerToJson, isCitationJson, List.all_map, Function.comp]

/-- Claim C9: a query that is a non-empty whitespace-only string is
not rejected with 400 but forwarded to the backend; and the 400 check
fires exactly on the JavaScript-falsy query values: absent field,
null, empty string, zero and false. -/
theorem postQueryCheckRejectsExactlyFalsy (backend : String → BackendResult) :
    (∀ s : String, s ≠ "" → (∀ c ∈ s.data, jsWhitespace c = true) →
      (POST backend (some (Json.obj [("query", Json.str s)]))).2 =
        [backendUrlBase ++ encodeURIComponent s] ∧
      (POST backend (some (Json.obj [("query", Json.str s)]))).1.status ≠ 400) ∧
    (∀ qv : Json, qv.truthy = false ↔
      (qv = Json.null ∨ qv = Json.str "" ∨ qv = Json.num 0 ∨ qv = Json.bool false)) ∧
    (∀ fs : List (String × Json),
      POST backend (some (Json.obj fs)) = (queryRequiredResponse, []) ↔
        (lookupField fs "query" = none ∨
          ∃ qv, lookupField fs "query" = some qv ∧ qv.truthy = false)) := by
  refine ⟨?_, ?_, ?_⟩
  · intro s hs _
    have hjs : (Json.str s).jsToString = s := by simp [Json.jsToString]
    rcases hbe : backend (backendUrlBase ++ encodeURIComponent s) with _ | ⟨ok, st, body⟩
    · simp [POST, destructureQuery, lookupField, Json.truthy, hs, hjs, hbe,
        failedToProcessResponse]
    · cases ok
      · simp [POST, destructureQuery, lookupField, Json.truthy, hs, hjs, hbe,
          failedToProcessResponse]
      · cases body
        · simp [POST, destructureQuery, lookupField, Json.truthy, hs, hjs, hbe,
            failedToProcessResponse]
        · simp [POST, destructureQuery, lookupField, Json.truthy, hs, hjs, hbe]
  · intro qv
    cases qv <;> simp [Json.truthy]
  · intro fs
    cases hq : lookupField fs "query" with
    | none =>
      simp [POST, destructureQuery, hq]
    | some qv =>
      cases htv : qv.truthy
      · simp [POST, destructureQuery, hq, htv]
      · constructor
        · intro h
          exfalso
          rcases hbe : backend (backendUrlBase ++ encodeURIComponent qv.jsToString)
            with _ | ⟨ok, st, body⟩
          · simp [POST, destructureQuery, hq, htv, hbe] at h
          · cases ok
            · simp [POST, destructureQuery, hq, htv, hbe] at h
            · cases body
              · simp [POST, destructureQuery, hq, htv, hbe] at h
              · simp [POST, destructureQuery, hq, htv, hbe, queryRequiredResponse] at h
        · rintro (h | ⟨qv2, hq2, ht2⟩)
          · cases h
          · cases hq2
            rw [htv] at ht2
            cases ht2

/-- Claim C1: every citation in a returned Answer has as source the
label of a document of the RetrievedSet of that query, with doc_id in
the RetrievedSet, for every generative-model output, including
adversarial outputs citing out-of-set sources (those are dropped). -/
theorem synthesizeCitationsAreRetrieved
    (gen : String → List (LawDocument × ℚ) → Option (String × List Citation))
    (q : String) (retrieved : List (LawDocument × ℚ)) (a : Answer)
    (hs : synthesize gen q retrieved = some a) :
    ∀ c ∈ a.citations, ∃ p ∈ retrieved, c.source = sourceLabel p.1 ∧
      p.1.id ∈ retrieved.map fun r => r.1.id := by
  intro c hc
  unfold synthesize at hs
  by_cases he : retrieved.isEmpty
  · rw [if_pos he] at hs
    cases hs
    exact absurd hc (List.not_mem_nil c)
  · rw [if_neg he] at hs
    cases hg : gen q retrieved with
    | none => rw [hg] at hs; cases hs
    | some out =>
      rw [hg] at hs
      cases hs
      rw [List.mem_filter] at hc
      obtain ⟨_, hpred⟩ := hc
      rw [List.any_eq_true] at hpred
      obtain ⟨r, hr, hlbl⟩ := hpred
      rw [beq_iff_eq] at hlbl
      exact ⟨r, hr, hlbl.symm, List.mem_map.mpr ⟨r, hr, rfl⟩⟩

/-- Claim C6: for every query whose RetrievedSet is empty, including
any query against an empty index, the system returns a non-error
Answer with the explicit no-relevant-law text and an empty citation
list. -/
theorem emptyRetrievalYieldsNoRelevantLaw
    (sim : List ℚ → List ℚ → ℚ) (embed : String → List ℚ)
    (gen : String → List (LawDocument × ℚ) → Option (String × List Citation))
    (q : String) (k : Nat) (hq : q ≠ "") :
    synthesize gen q [] = some ⟨noRelevantLawText, []⟩ ∧
    retrieve [] sim embed q k = [] ∧
    answerQuery [] sim embed gen q k = Except.ok ⟨noRelevantLawText, []⟩ := by
  refine ⟨rfl, ?_, ?_⟩
  · simp [retrieve, search]
  · simp [answerQuery, hq, retrieve, search, buildIndex, synthesize]

/-- Helper: the law_number to id pairs produced by first-occurrence
deduplication depend only on the sequence of law numbers. -/
theorem dedupByLawNumber_keys (seen : List String) (corpus : List RawRecord) :
    (dedupByLawNumber seen corpus).map (fun r => (r.law_number, deriveId r.law_number)) =
      (dedupKeys seen (corpus.map RawRecord.law_number)).map fun n => (n, deriveId n) := by
  induction corpus generalizing seen with
  | nil => rfl
  | cons r rs ih =>
    simp only [dedupByLawNumber, List.map, dedupKeys]
    by_cases h : r.law_number ∈ seen
    · rw [if_pos h, if_pos h]
      exact ih seen
    · rw [if_neg h, if_neg h]
      simp [ih]

/-- Claim C7: the law_number to id mapping of an ingestion run is a
deterministic function of the law numbers of the corpus records alone,
so two runs over an identical corpus produce identical mappings, and
each id is derived from its law_number by the fixed keying function. -/
theorem ingestMappingDeterministic (c₁ c₂ : List RawRecord)
    (h : c₁.map RawRecord.law_number = c₂.map RawRecord.law_number) :
    ingestMapping c₁ = ingestMapping c₂ ∧
    ∀ p ∈ ingestMapping c₁, p.2 = deriveId p.1 := by
  constructor
  · unfold ingestMapping
    rw [dedupByLawNumber_keys, dedupByLawNumber_keys, h]
  · intro p hp
    unfold ingestMapping at hp
    rw [List.mem_map] at hp
    obtain ⟨r, _, rfl⟩ := hp
    rfl

/-- Claim C4: for every query string and positive k, the Retriever
returns at most k results, the doc_ids of the results are pairwise
distinct (given the index invariant that doc_ids are unique), the
similarity scores are non-increasing in result order, and equal scores
are ordered by strictly ascending doc_id. -/
theorem retrieveOrderedUniqueBounded (idx : List IndexEntry)
    (sim : List ℚ → List ℚ → ℚ) (embed : String → List ℚ) (q : String) (k : Nat)
    (hk : 0 < k) (hnodup : (idx.map IndexEntry.doc_id).Nodup) :
    (retrieve idx sim embed q k).length ≤ k ∧
    ((retrieve idx sim embed q k).map Scored.doc_id).Nodup ∧
    (retrieve idx sim embed q k).Pairwise fun a b =>
      b.score ≤ a.score ∧ (a.score = b.score → a.doc_id < b.doc_id) := by
  have _ := hk
  set mapped := idx.map fun e => (⟨e.doc_id, sim (embed q) e.vec⟩ : Scored) with hm
  have hres : retrieve idx sim embed q k = (List.insertionSort Scored.le mapped).take k := rfl
  set sorted := List.insertionSort Scored.le mapped with hsorteq
  have hperm : List.Perm sorted mapped := List.perm_insertionSort _ _
  have hmapeq : mapped.map Scored.doc_id = idx.map IndexEntry.doc_id := by
    rw [hm, List.map_map]
    rfl
  have hsub : List.Sublist (sorted.take k) sorted := List.take_sublist k sorted
  have hnodup_sorted : (sorted.map Scored.doc_id).Nodup := by
    refine (List.Perm.nodup_iff (List.Perm.map _ hperm)).mpr ?_
    rw [hmapeq]
    exact hnodup
  have hnodup_res : ((sorted.take k).map Scored.doc_id).Nodup :=
    List.Nodup.sublist (List.Sublist.map _ hsub) hnodup_sorted
  have hsorted : List.Sorted Scored.le sorted := List.sorted_insertionSort _ _
  have hpair_le : (sorted.take k).Pairwise Scored.le := List.Pairwise.sublist hsub hsorted
  have hpair_ne : (sorted.take k).Pairwise fun a b => a.doc_id ≠ b.doc_id :=
    List.pairwise_map.mp hnodup_res
  refine ⟨?_, ?_, ?_⟩
  · rw [hres]
    exact List.length_take_le k sorted
  · rw [hres]
    exact hnodup_res
  · rw [hres]
    refine List.Pairwise.imp₂ ?_ hpair_le hpair_ne
    intro a b hab hne
    rcases hab with h | ⟨h1, h2⟩
    · exact ⟨le_of_lt h, fun he => absurd (he ▸ h) (lt_irrefl _)⟩
    · exact ⟨le_of_eq h1.symm, fun _ => lt_of_le_of_ne h2 hne⟩

theorem postRejectsMissingOrEmptyQueryWitness :
    POST (fun _ => BackendResult.fetchError) (some (Json.obj [])) =
      (queryRequiredResponse, []) ∧ queryRequiredResponse.status = 400 :=
  postRejectsMissingOrEmptyQuery _ (Json.obj []) none rfl (Or.inl rfl)

theorem postUpstreamFailureIsGeneric500Witness :
    POST (fun _ => BackendResult.response false 502 (some (Json.str "raw upstream detail")))
        (some (Json.obj [("query", Json.str "laws")])) =
      (failedToProcessResponse,
        [backendUrlBase ++ encodeURIComponent (Json.str "laws").jsToString]) ∧
    failedToProcessResponse.status = 500 ∧
    failedToProcessResponse.body = Json.obj [("error", Json.str "Failed to process query")] :=
  postUpstreamFailureIsGeneric500 _ _ (Json.str "laws") rfl (by decide)
    (Or.inr ⟨502, some (Json.str "raw upstream detail"), rfl⟩)

theorem handleSendMessageTrimsAndGuardsWitness :
    handleSendMessage "  widow law " false = some (jsTrim "  widow law ") :=
  (handleSendMessageTrimsAndGuards "  widow law " false).2 (by decide) rfl

theorem postForwardsAndReturnsBackendBodyWitness :
    POST (fun _ => BackendResult.response true 200
        (some (answerToJson "widow" ⟨"resp",
          [⟨"Law 3.1.1 (Widows) - Maintenance of Widow", "excerpt"⟩]⟩)))
        (some (Json.obj [("query", Json.str "widow")])) =
      ({ status := 200, body := answerToJson "widow" ⟨"resp",
          [⟨"Law 3.1.1 (Widows) - Maintenance of Widow", "excerpt"⟩]⟩ },
        [backendUrlBase ++ encodeURIComponent "widow"]) ∧
    ∀ q a, hasAnswerShape (answerToJson q a) = true :=
  postForwardsAndReturnsBackendBody _ "widow" (by decide) 200 _ rfl

theorem postQueryCheckRejectsExactlyFalsyWitness :
    (POST (fun _ => BackendResult.fetchError) (some (Json.obj [("query", Json.str " ")]))).2 =
        [backendUrlBase ++ encodeURIComponent " "] ∧
    (POST (fun _ => BackendResult.fetchError)
      (some (Json.obj [("query", Json.str " ")]))).1.status ≠ 400 :=
  (postQueryCheckRejectsExactlyFalsy (fun _ => BackendResult.fetchError)).1 " "
    (by decide) (by decide)

theorem synthesizeCitationsAreRetrievedWitness :
    ∃ p ∈ [(widowDoc, (1 : ℚ))],
      (Citation.mk (sourceLabel widowDoc) "excerpt").source = sourceLabel p.1 ∧
      p.1.id ∈ [(widowDoc, (1 : ℚ))].map fun r => r.1.id :=
  synthesizeCitationsAreRetrieved
    (fun _ _ => some ("ans", [⟨sourceLabel widowDoc, "excerpt"⟩, ⟨"Hallucinated Law", "x"⟩]))
    "q" [(widowDoc, 1)] ⟨"ans", [⟨sourceLabel widowDoc, "excerpt"⟩]⟩ rfl
    ⟨sourceLabel widowDoc, "excerpt"⟩ (by simp)

theorem emptyRetrievalYieldsNoRelevantLawWitness :
    synthesize (fun _ _ => none) "widow" [] = some ⟨noRelevantLawText, []⟩ ∧
    retrieve [] dotProduct (fun _ => [1]) "widow" 3 = [] ∧
    answerQuery [] dotProduct (fun _ => [1]) (fun _ _ => none) "widow" 3 =
      Except.ok ⟨noRelevantLawText, []⟩ :=
  emptyRetrievalYieldsNoRelevantLaw dotProduct _ _ "widow" 3 (by decide)

theorem ingestMappingDeterministicWitness :
    ingestMapping [⟨"3.1.1", "Widows", "Maintenance of Widow", "first run text"⟩] =
      ingestMapping [⟨"3.1.1", "Widows", "Maintenance of Widow", "second run text"⟩] :=
  (ingestMappingDeterministic _ _ rfl).1

theorem retrieveOrderedUniqueBoundedWitness :
    (retrieve [⟨"law-1", [1, 0]⟩, ⟨"law-2", [0, 1]⟩] dotProduct
      (fun _ => [1, 1]) "w" 2).length ≤ 2 ∧
    ((retrieve [⟨"law-1", [1, 0]⟩, ⟨"law-2", [0, 1]⟩] dotProduct
      (fun _ => [1, 1]) "w" 2).map Scored.doc_id).Nodup ∧
    (retrieve [⟨"law-1", [1, 0]⟩, ⟨"law-2", [0, 1]⟩] dotProduct
      (fun _ => [1, 1]) "w" 2).Pairwise fun a b =>
        b.score ≤ a.score ∧ (a.score = b.score → a.doc_id < b.doc_id) :=
  retrieveOrderedUniqueBounded _ dotProduct _ "w" 2 (by decide) (by decide)
